import Mathlib

/-!
Verification of `checkSensor.c` / `checkSensor.h` (CapSense sensor health check).

The C function `checkSensor(sensorMask, resetBaseline)` walks all widgets and,
within each widget, all of its sensors, keeping a flat running `sensorIndex`.
For each sensor whose bit is set in `sensorMask` it applies three rules
(hyper event, no man's land, stuck sensor), updates two persistent per-sensor
counters, optionally calls `Cy_CapSense_InitializeSensorBaseline`, and ORs the
sensor's bit into the returned result mask.

The embedding below keeps the source structure: `processSensor` is the body of
the inner loop for one selected sensor, `snsLoop` is the inner `snsNum` loop,
`wdLoop` is the outer `widgetID` loop, and `checkSensor` assembles the call.
Baseline-reset invocations are recorded as a trace list; each entry carries the
`(widgetID, snsNum)` arguments of the C call plus the flat `sensorIndex` at the
call site.

Note on fidelity: in the C source the widget-context pointer `ptrWdContext`
(thresholds `fingerTh`, `noiseTh`, `hysteresis`) is initialised to the first
element of `cy_capsense_tuner.widgetContext` and is never incremented in the
widget loop (only `ptrWdConfig` and `ptrSensors` advance). The embedding
reproduces this: every sensor is checked against the first widget's context.
-/

set_option maxRecDepth 8000

namespace CheckSensors

/-- `cy_stc_capsense_widget_config_t` (flash): `checkSensor` reads only `numSns`. -/
structure WidgetConfig where
  numSns : Nat

/-- `cy_stc_capsense_widget_context_t` (SRAM): the three thresholds read by
`checkSensor`. -/
structure WidgetContext where
  fingerTh : Nat
  noiseTh : Nat
  hysteresis : Nat

/-- `cy_stc_capsense_sensor_context_t` (SRAM): `diff` is the signal delta and
`status` models the touch bit `(status & CY_CAPSENSE_SNS_TOUCH_STATUS_MASK) != 0`. -/
structure SensorContext where
  diff : Nat
  status : Bool

/-- The external CapSense data consumed by `checkSensor`: the widget
configuration array (`cy_capsense_context.ptrWdConfig`), the widget context
array (`cy_capsense_tuner.widgetContext`) and the flat sensor context array
(`cy_capsense_tuner.sensorContext`). -/
structure CapSenseState where
  wdConfig : List WidgetConfig
  widgetContext : List WidgetContext
  sensorContext : List SensorContext

/-- The two persistent `static` counter arrays of `checkSensor`, indexed by the
flat sensor index. -/
structure MonitorState where
  noMansLandCounter : List Nat
  stuckCounter : List Nat

/-- `ALL_SENSORS` from `checkSensor.h`. -/
def ALL_SENSORS : Nat := 0xffffffff

/-- `STUCK_SENSOR_TIMEOUT_MSEC` from `checkSensor.h`. -/
def STUCK_SENSOR_TIMEOUT_MSEC : Nat := 6000

/-- `NO_MANS_LAND_TIMEOUT_MSEC` from `checkSensor.h`. -/
def NO_MANS_LAND_TIMEOUT_MSEC : Nat := 3000

/-- `HYPER_EVENT_FTH_MULTIPLIER` from `checkSensor.h`. -/
def HYPER_EVENT_FTH_MULTIPLIER : Nat := 2

/-- `CAPSENSE_TOTAL_SCAN_TIME_MSEC` from `checkSensor.h`. -/
def CAPSENSE_TOTAL_SCAN_TIME_MSEC : Nat := 10

/-- `STUCK_SENSOR_COUNT` from `checkSensor.h` (truncating integer division). -/
def STUCK_SENSOR_COUNT : Nat := STUCK_SENSOR_TIMEOUT_MSEC / CAPSENSE_TOTAL_SCAN_TIME_MSEC

/-- `NO_MANS_LAND_COUNT` from `checkSensor.h` (truncating integer division). -/
def NO_MANS_LAND_COUNT : Nat := NO_MANS_LAND_TIMEOUT_MSEC / CAPSENSE_TOTAL_SCAN_TIME_MSEC

/-- Default element used for out-of-range sensor reads (configurations of
interest are well formed, so these defaults are never reached there). -/
def snsDefault : SensorContext := ⟨0, false⟩

/-- Default element used for reading the widget context when the array is
empty (in that case the loops do not run and the value is irrelevant). -/
def wdDefault : WidgetContext := ⟨0, 0, 0⟩

/-- Outcome of the loop body for one selected sensor: one Boolean per
`result |= 1 << sensorIndex` site (hyper event, no man's land, stuck), the
updated counters, and the trace of baseline-reset calls made in this body. -/
structure SensorStep where
  hyperFlag : Bool
  nmlFlag : Bool
  stuckFlag : Bool
  nml : Nat
  stuck : Nat
  resets : List (Nat × Nat × Nat)

/-- The body of the inner loop of `checkSensor` for one sensor whose mask bit
is set: the hyper-event test, the no-man's-land test with its counter, and the
stuck-sensor test with its counter, in source order.  `wd` is the widget
context the source reads through `ptrWdContext`. -/
def processSensor (wd : WidgetContext) (sns : SensorContext)
    (widgetID snsNum sensorIndex : Nat) (resetBaseline : Bool)
    (nml stuck : Nat) : SensorStep :=
  let hyperFlag : Bool := decide (HYPER_EVENT_FTH_MULTIPLIER * wd.fingerTh < sns.diff)
  let inBand : Bool := decide (wd.noiseTh < sns.diff) &&
    decide (sns.diff < wd.fingerTh + wd.hysteresis)
  let nml1 : Nat := if inBand then nml + 1 else nml
  let nmlFlag : Bool := inBand && decide (NO_MANS_LAND_COUNT < nml1)
  let nml2 : Nat := if nmlFlag then 0 else nml1
  let stuck1 : Nat := if sns.status then stuck + 1 else stuck
  let stuckFlag : Bool := sns.status && decide (STUCK_SENSOR_COUNT < stuck1)
  let stuck2 : Nat := if stuckFlag then 0 else stuck1
  let call : List (Nat × Nat × Nat) := [(widgetID, snsNum, sensorIndex)]
  let resets : List (Nat × Nat × Nat) :=
    (if hyperFlag && resetBaseline then call else []) ++
      ((if nmlFlag && resetBaseline then call else []) ++
        (if stuckFlag && resetBaseline then call else []))
  ⟨hyperFlag, nmlFlag, stuckFlag, nml2, stuck2, resets⟩

/-- Inner loop of `checkSensor` (`for snsNum in 0..numSns-1`), recursing on the
number of remaining sensors of the widget.  Returns
`(result, noMansLandCounter, stuckCounter, resets)`. -/
def snsLoop (wd : WidgetContext) (sensors : List SensorContext)
    (sensorMask : Nat) (resetBaseline : Bool) (widgetID : Nat) :
    Nat → Nat → Nat → List Nat → List Nat → Nat →
      Nat × List Nat × List Nat × List (Nat × Nat × Nat)
  | 0, _, _, nml, stuck, result => (result, nml, stuck, [])
  | n + 1, snsNum, sensorIndex, nml, stuck, result =>
    if sensorMask.testBit sensorIndex then
      let o := processSensor wd (sensors.getD sensorIndex snsDefault) widgetID snsNum
        sensorIndex resetBaseline (nml.getD sensorIndex 0) (stuck.getD sensorIndex 0)
      let b := 1 <<< sensorIndex
      let r1 := if o.hyperFlag then result ||| b else result
      let r2 := if o.nmlFlag then r1 ||| b else r1
      let r3 := if o.stuckFlag then r2 ||| b else r2
      let rest := snsLoop wd sensors sensorMask resetBaseline widgetID n (snsNum + 1)
        (sensorIndex + 1) (nml.set sensorIndex o.nml) (stuck.set sensorIndex o.stuck) r3
      (rest.1, rest.2.1, rest.2.2.1, o.resets ++ rest.2.2.2)
    else
      snsLoop wd sensors sensorMask resetBaseline widgetID n (snsNum + 1) (sensorIndex + 1)
        nml stuck result

/-- Outer loop of `checkSensor` over widgets, recursing on the number of
remaining widgets (the C loop bound is the length of the widget context
array).  `wd` stays fixed across widgets, mirroring the source's never
incremented `ptrWdContext`. -/
def wdLoop (wd : WidgetContext) (sensors : List SensorContext)
    (wdConfig : List WidgetConfig) (sensorMask : Nat) (resetBaseline : Bool) :
    Nat → Nat → Nat → List Nat → List Nat → Nat →
      Nat × List Nat × List Nat × List (Nat × Nat × Nat)
  | 0, _, _, nml, stuck, result => (result, nml, stuck, [])
  | w + 1, widgetID, sensorIndex, nml, stuck, result =>
    let numSns := (wdConfig.getD widgetID ⟨0⟩).numSns
    let inner := snsLoop wd sensors sensorMask resetBaseline widgetID numSns 0 sensorIndex
      nml stuck result
    let rest := wdLoop wd sensors wdConfig sensorMask resetBaseline w (widgetID + 1)
      (sensorIndex + numSns) inner.2.1 inner.2.2.1 inner.1
    (rest.1, rest.2.1, rest.2.2.1, inner.2.2.2 ++ rest.2.2.2)

/-- Result of one call to `checkSensor`: the returned mask, the two counter
arrays after the call, and the trace of baseline-reset invocations. -/
structure CheckResult where
  result : Nat
  noMansLandCounter : List Nat
  stuckCounter : List Nat
  resets : List (Nat × Nat × Nat)

/-- `checkSensor(sensorMask, resetBaseline)` from `checkSensor.c`, as a function
of the external CapSense state and the persistent counter arrays. -/
def checkSensor (st : CapSenseState) (counters : MonitorState)
    (sensorMask : Nat) (resetBaseline : Bool) : CheckResult :=
  let out := wdLoop (st.widgetContext.headD wdDefault) st.sensorContext st.wdConfig
    sensorMask resetBaseline st.widgetContext.length 0 0
    counters.noMansLandCounter counters.stuckCounter 0
  ⟨out.1, out.2.1, out.2.2.1, out.2.2.2⟩

/-- Modelled from the spec: the intended per-widget threshold lookup.  The spec
says each sensor is compared "against the thresholds of the widget that sensor
belongs to"; this outer loop differs from `wdLoop` only in advancing the widget
context together with `widgetID` (the source's missing `ptrWdContext++`). -/
def wdLoopPerWidget (widgetContexts : List WidgetContext) (sensors : List SensorContext)
    (wdConfig : List WidgetConfig) (sensorMask : Nat) (resetBaseline : Bool) :
    Nat → Nat → Nat → List Nat → List Nat → Nat →
      Nat × List Nat × List Nat × List (Nat × Nat × Nat)
  | 0, _, _, nml, stuck, result => (result, nml, stuck, [])
  | w + 1, widgetID, sensorIndex, nml, stuck, result =>
    let numSns := (wdConfig.getD widgetID ⟨0⟩).numSns
    let inner := snsLoop (widgetContexts.getD widgetID wdDefault) sensors sensorMask
      resetBaseline widgetID numSns 0 sensorIndex nml stuck result
    let rest := wdLoopPerWidget widgetContexts sensors wdConfig sensorMask resetBaseline w
      (widgetID + 1) (sensorIndex + numSns) inner.2.1 inner.2.2.1 inner.1
    (rest.1, rest.2.1, rest.2.2.1, inner.2.2.2 ++ rest.2.2.2)

/-- Modelled from the spec: `checkSensor` as the spec describes it, with each
widget's own thresholds applied to its sensors. -/
def checkSensorPerWidget (st : CapSenseState) (counters : MonitorState)
    (sensorMask : Nat) (resetBaseline : Bool) : CheckResult :=
  let out := wdLoopPerWidget st.widgetContext st.sensorContext st.wdConfig
    sensorMask resetBaseline st.widgetContext.length 0 0
    counters.noMansLandCounter counters.stuckCounter 0
  ⟨out.1, out.2.1, out.2.2.1, out.2.2.2⟩

/-- Total number of sensors visited by the traversal: the sum of `numSns` over
the widgets the outer loop iterates (bounded by the widget context count). -/
def sumSnsFrom (wdConfig : List WidgetConfig) (widgetID : Nat) : Nat → Nat
  | 0 => 0
  | w + 1 => (wdConfig.getD widgetID ⟨0⟩).numSns + sumSnsFrom wdConfig (widgetID + 1) w

/-- Iterated per-sensor evolution: counters of one sensor after `k` consecutive
selected calls with fixed widget context and sensor reading, starting from
`(c0, s0)`.  `(run k).1` is the no-man's-land counter, `(run k).2` the stuck
counter. -/
def sensorRun (wd : WidgetContext) (sns : SensorContext)
    (widgetID snsNum sensorIndex : Nat) (resetBaseline : Bool)
    (c0 s0 : Nat) : Nat → Nat × Nat
  | 0 => (c0, s0)
  | k + 1 =>
    let p := sensorRun wd sns widgetID snsNum sensorIndex resetBaseline c0 s0 k
    let o := processSensor wd sns widgetID snsNum sensorIndex resetBaseline p.1 p.2
    (o.nml, o.stuck)

/-- Two-widget configuration from the spec's end-to-end scenario: widget A has
one sensor (FT=100, NT=20, HYST=10), widget B has one sensor (FT=200, NT=50,
HYST=20); sensor A idle (diff 0), sensor B at signal 210, neither touched. -/
def scenarioState : CapSenseState :=
  ⟨[⟨1⟩, ⟨1⟩], [⟨100, 20, 10⟩, ⟨200, 50, 20⟩], [⟨0, false⟩, ⟨210, false⟩]⟩

/-- Zero-initialised counters for the two-sensor scenario. -/
def scenarioCounters : MonitorState := ⟨[0, 0], [0, 0]⟩

/-- Two-widget configuration refuting claim C6: widget 0 has FT=300, widget 1
has FT=100 (NT=20, HYST=10 for both), one sensor each; sensor 1 reads signal
250, strictly greater than twice its own widget's finger threshold, and is not
touched. -/
def hyperState : CapSenseState :=
  ⟨[⟨1⟩, ⟨1⟩], [⟨300, 20, 10⟩, ⟨100, 20, 10⟩], [⟨0, false⟩, ⟨250, false⟩]⟩

theorem getD_set_ne {l : List Nat} {i j : Nat} (v : Nat) (h : i ≠ j) :
    (l.set i v).getD j 0 = l.getD j 0 := by
  simp [List.getD_eq_getElem?_getD, List.getElem?_set_ne h]

theorem getD_set_le {l : List Nat} {i v B : Nat} (hv : v ≤ B)
    (hl : ∀ k, l.getD k 0 ≤ B) (j : Nat) : (l.set i v).getD j 0 ≤ B := by
  rcases eq_or_ne i j with rfl | h
  · rw [List.getD_eq_getElem?_getD, List.getElem?_set, if_pos rfl]
    by_cases hlen : i < l.length
    · simpa [hlen] using hv
    · simp [hlen]
  · rw [getD_set_ne v h]; exact hl j

theorem testBit_lor_shift_self (x i : Nat) : (x ||| 1 <<< i).testBit i = true := by
  simp [Nat.testBit_or, Nat.one_shiftLeft]

theorem testBit_lor_shift_ne (x : Nat) {i j : Nat} (h : i ≠ j) :
    (x ||| 1 <<< i).testBit j = x.testBit j := by
  simp [Nat.testBit_or, Nat.one_shiftLeft, Nat.testBit_two_pow_of_ne h]

theorem testBit_orBit (x : Nat) (b : Bool) {i j : Nat} (h : i ≠ j) :
    (if b then x ||| 1 <<< i else x).testBit j = x.testBit j := by
  cases b
  · simp
  · simp [testBit_lor_shift_ne x h]

theorem snsLoop_result_unsel (wd : WidgetContext) (sensors : List SensorContext)
    (mask : Nat) (rb : Bool) (wid : Nat) {i : Nat} (hi : mask.testBit i = false) :
    ∀ (n snsNum idx : Nat) (nml stuck : List Nat) (result : Nat),
      (snsLoop wd sensors mask rb wid n snsNum idx nml stuck result).1.testBit i
        = result.testBit i := by
  intro n
  induction n with
  | zero => intro snsNum idx nml stuck result; rfl
  | succ n ih =>
    intro snsNum idx nml stuck result
    by_cases hm : mask.testBit idx
    · have hne : idx ≠ i := by
        intro he; rw [he, hi] at hm; exact Bool.false_ne_true hm
      simp only [snsLoop, hm, if_true, ih]
      rw [testBit_orBit _ _ hne, testBit_orBit _ _ hne, testBit_orBit _ _ hne]
    · simp only [snsLoop, hm, if_false]
      exact ih _ _ _ _ _

theorem processSensor_hyperFlag (wd : WidgetContext) (sns : SensorContext)
    (a b c : Nat) (rb : Bool) (n s : Nat) :
    (processSensor wd sns a b c rb n s).hyperFlag
      = decide (HYPER_EVENT_FTH_MULTIPLIER * wd.fingerTh < sns.diff) := rfl

theorem processSensor_nml_eq (wd : WidgetContext) (sns : SensorContext)
    (a b c : Nat) (rb : Bool) (n s : Nat) :
    (processSensor wd sns a b c rb n s).nml =
      if (decide (wd.noiseTh < sns.diff) && decide (sns.diff < wd.fingerTh + wd.hysteresis))
          && decide (NO_MANS_LAND_COUNT <
            if decide (wd.noiseTh < sns.diff) && decide (sns.diff < wd.fingerTh + wd.hysteresis)
            then n + 1 else n)
        then 0
        else if decide (wd.noiseTh < sns.diff) && decide (sns.diff < wd.fingerTh + wd.hysteresis)
          then n + 1 else n := rfl

theorem mem_ite_singleton {α : Type} {x r : α} {b : Bool}
    (h : r ∈ if b then [x] else []) : r = x := by
  cases b
  · cases h
  · simpa using h

theorem processSensor_resets_mem (wd : WidgetContext) (sns : SensorContext)
    (a b c : Nat) (rb : Bool) (n s : Nat) :
    ∀ r ∈ (processSensor wd sns a b c rb n s).resets, r = (a, b, c) := by
  intro r hr
  dsimp only [processSensor] at hr
  rcases List.mem_append.1 hr with h | h
  · exact mem_ite_singleton h
  · rcases List.mem_append.1 h with h | h
    · exact mem_ite_singleton h
    · exact mem_ite_singleton h

theorem processSensor_nml_le (wd : WidgetContext) (sns : SensorContext)
    (a b c : Nat) (rb : Bool) {n : Nat} (s : Nat) (h : n ≤ NO_MANS_LAND_COUNT) :
    (processSensor wd sns a b c rb n s).nml ≤ NO_MANS_LAND_COUNT := by
  rw [processSensor_nml_eq]
  by_cases hib : (decide (wd.noiseTh < sns.diff) &&
      decide (sns.diff < wd.fingerTh + wd.hysteresis)) = true
  · simp only [hib, Bool.true_and, if_true]
    split
    · exact Nat.zero_le _
    · rename_i hf
      simp only [decide_eq_true_eq] at hf
      omega
  · simp only [Bool.not_eq_true] at hib
    simp only [hib, Bool.false_and, Bool.false_eq_true, if_false]
    exact h

theorem processSensor_stuck_eq (wd : WidgetContext) (sns : SensorContext)
    (a b c : Nat) (rb : Bool) (n s : Nat) :
    (processSensor wd sns a b c rb n s).stuck =
      if sns.status && decide (STUCK_SENSOR_COUNT < if sns.status then s + 1 else s)
        then 0 else if sns.status then s + 1 else s := rfl

theorem processSensor_stuck_le (wd : WidgetContext) (sns : SensorContext)
    (a b c : Nat) (rb : Bool) (n : Nat) {s : Nat} (h : s ≤ STUCK_SENSOR_COUNT) :
    (processSensor wd sns a b c rb n s).stuck ≤ STUCK_SENSOR_COUNT := by
  rw [processSensor_stuck_eq]
  by_cases hst : sns.status = true
  · simp only [hst, Bool.true_and, if_true]
    split
    · exact Nat.zero_le _
    · rename_i hf
      simp only [decide_eq_true_eq] at hf
      omega
  · simp only [Bool.not_eq_true] at hst
    simp only [hst, Bool.false_and, Bool.false_eq_true, if_false]
    exact h

theorem testBit_orBit_mono (x : Nat) (b : Bool) (j : Nat) {i : Nat}
    (h : x.testBit i = true) : (if b then x ||| 1 <<< j else x).testBit i = true := by
  cases b
  · simpa using h
  · simp [Nat.testBit_or, h]

theorem snsLoop_counters_frame (wd : WidgetContext) (sensors : List SensorContext)
    (mask : Nat) (rb : Bool) (wid : Nat) {i : Nat} :
    ∀ (n snsNum idx : Nat) (nml stuck : List Nat) (result : Nat),
      (mask.testBit i = false ∨ i < idx ∨ idx + n ≤ i) →
      (snsLoop wd sensors mask rb wid n snsNum idx nml stuck result).2.1.getD i 0
          = nml.getD i 0 ∧
        (snsLoop wd sensors mask rb wid n snsNum idx nml stuck result).2.2.1.getD i 0
          = stuck.getD i 0 := by
  intro n
  induction n with
  | zero => intro snsNum idx nml stuck result _; exact ⟨rfl, rfl⟩
  | succ n ih =>
    intro snsNum idx nml stuck result hrange
    have hnext : mask.testBit i = false ∨ i < idx + 1 ∨ (idx + 1) + n ≤ i := by
      rcases hrange with h | h | h
      · exact Or.inl h
      · exact Or.inr (Or.inl (Nat.lt_succ_of_lt h))
      · exact Or.inr (Or.inr (by omega))
    by_cases hm : mask.testBit idx
    · have hne : idx ≠ i := by
        rcases hrange with h | h | h
        · intro he; rw [he, h] at hm; exact Bool.false_ne_true hm
        · omega
        · omega
      simp only [snsLoop, hm, if_true]
      refine ⟨?_, ?_⟩
      · rw [(ih _ _ _ _ _ hnext).1, getD_set_ne _ hne]
      · rw [(ih _ _ _ _ _ hnext).2, getD_set_ne _ hne]
    · simp only [snsLoop, hm, if_false]
      exact ih _ _ _ _ _ hnext

theorem snsLoop_resets_sel (wd : WidgetContext) (sensors : List SensorContext)
    (mask : Nat) (rb : Bool) (wid : Nat) :
    ∀ (n snsNum idx : Nat) (nml stuck : List Nat) (result : Nat),
      ∀ r ∈ (snsLoop wd sensors mask rb wid n snsNum idx nml stuck result).2.2.2,
        mask.testBit r.2.2 = true := by
  intro n
  induction n with
  | zero => intro snsNum idx nml stuck result r hr; cases hr
  | succ n ih =>
    intro snsNum idx nml stuck result r hr
    by_cases hm : mask.testBit idx
    · simp only [snsLoop, hm, if_true] at hr
      rcases List.mem_append.1 hr with h | h
      · have := processSensor_resets_mem wd (sensors.getD idx snsDefault) wid snsNum idx rb
          (nml.getD idx 0) (stuck.getD idx 0) r h
        rw [this]
        exact hm
      · exact ih _ _ _ _ _ r h
    · simp only [snsLoop, hm, if_false] at hr
      exact ih _ _ _ _ _ r hr

theorem snsLoop_result_mono (wd : WidgetContext) (sensors : List SensorContext)
    (mask : Nat) (rb : Bool) (wid : Nat) {i : Nat} :
    ∀ (n snsNum idx : Nat) (nml stuck : List Nat) (result : Nat),
      result.testBit i = true →
      (snsLoop wd sensors mask rb wid n snsNum idx nml stuck result).1.testBit i = true := by
  intro n
  induction n with
  | zero => intro snsNum idx nml stuck result h; exact h
  | succ n ih =>
    intro snsNum idx nml stuck result h
    by_cases hm : mask.testBit idx
    · simp only [snsLoop, hm, if_true]
      exact ih _ _ _ _ _ (testBit_orBit_mono _ _ _ (testBit_orBit_mono _ _ _
        (testBit_orBit_mono _ _ _ h)))
    · simp only [snsLoop, hm, if_false]
      exact ih _ _ _ _ _ h

theorem snsLoop_sets_bit (wd : WidgetContext) (sensors : List SensorContext)
    (mask : Nat) (rb : Bool) (wid : Nat) {i : Nat}
    (hsel : mask.testBit i = true)
    (hdiff : HYPER_EVENT_FTH_MULTIPLIER * wd.fingerTh < (sensors.getD i snsDefault).diff) :
    ∀ (n snsNum idx : Nat) (nml stuck : List Nat) (result : Nat),
      idx ≤ i → i < idx + n →
      (snsLoop wd sensors mask rb wid n snsNum idx nml stuck result).1.testBit i = true := by
  intro n
  induction n with
  | zero => intro snsNum idx nml stuck result h1 h2; omega
  | succ n ih =>
    intro snsNum idx nml stuck result h1 h2
    rcases Nat.lt_or_ge idx i with hlt | hge
    · by_cases hm : mask.testBit idx
      · simp only [snsLoop, hm, if_true]
        exact ih _ _ _ _ _ (by omega) (by omega)
      · simp only [snsLoop, hm, if_false]
        exact ih _ _ _ _ _ (by omega) (by omega)
    · have hidx : idx = i := by omega
      subst hidx
      simp only [snsLoop, hsel, if_true]
      apply snsLoop_result_mono
      apply testBit_orBit_mono
      apply testBit_orBit_mono
      rw [processSensor_hyperFlag, decide_eq_true hdiff, if_pos rfl]
      exact testBit_lor_shift_self _ _

theorem snsLoop_rb_inv (wd : WidgetContext) (sensors : List SensorContext)
    (mask : Nat) (wid : Nat) (rb : Bool) :
    ∀ (n snsNum idx : Nat) (nml stuck : List Nat) (result : Nat),
      ((snsLoop wd sensors mask rb wid n snsNum idx nml stuck result).1,
        (snsLoop wd sensors mask rb wid n snsNum idx nml stuck result).2.1,
        (snsLoop wd sensors mask rb wid n snsNum idx nml stuck result).2.2.1)
      = ((snsLoop wd sensors mask false wid n snsNum idx nml stuck result).1,
        (snsLoop wd sensors mask false wid n snsNum idx nml stuck result).2.1,
        (snsLoop wd sensors mask false wid n snsNum idx nml stuck result).2.2.1) := by
  intro n
  induction n with
  | zero => intro _ _ _ _ _; rfl
  | succ n ih =>
    intro snsNum idx nml stuck result
    by_cases hm : mask.testBit idx
    · simp only [snsLoop, hm, if_true]
      exact ih _ _ _ _ _
    · simp only [snsLoop, hm, if_false]
      exact ih _ _ _ _ _

theorem processSensor_resets_false (wd : WidgetContext) (sns : SensorContext)
    (a b c : Nat) (n s : Nat) :
    (processSensor wd sns a b c false n s).resets = [] := by
  dsimp only [processSensor]
  simp

theorem snsLoop_resets_false (wd : WidgetContext) (sensors : List SensorContext)
    (mask : Nat) (wid : Nat) :
    ∀ (n snsNum idx : Nat) (nml stuck : List Nat) (result : Nat),
      (snsLoop wd sensors mask false wid n snsNum idx nml stuck result).2.2.2 = [] := by
  intro n
  induction n with
  | zero => intro _ _ _ _ _; rfl
  | succ n ih =>
    intro snsNum idx nml stuck result
    by_cases hm : mask.testBit idx
    · simp only [snsLoop, hm, if_true, processSensor_resets_false, List.nil_append]
      exact ih _ _ _ _ _
    · simp only [snsLoop, hm, if_false]
      exact ih _ _ _ _ _

theorem snsLoop_bound (wd : WidgetContext) (sensors : List SensorContext)
    (mask : Nat) (rb : Bool) (wid : Nat) :
    ∀ (n snsNum idx : Nat) (nml stuck : List Nat) (result : Nat),
      (∀ k, nml.getD k 0 ≤ NO_MANS_LAND_COUNT) →
      (∀ k, stuck.getD k 0 ≤ STUCK_SENSOR_COUNT) →
      (∀ k, (snsLoop wd sensors mask rb wid n snsNum idx nml stuck result).2.1.getD k 0
          ≤ NO_MANS_LAND_COUNT) ∧
        (∀ k, (snsLoop wd sensors mask rb wid n snsNum idx nml stuck result).2.2.1.getD k 0
          ≤ STUCK_SENSOR_COUNT) := by
  intro n
  induction n with
  | zero => intro _ _ nml stuck _ h1 h2; exact ⟨h1, h2⟩
  | succ n ih =>
    intro snsNum idx nml stuck result h1 h2
    by_cases hm : mask.testBit idx
    · simp only [snsLoop, hm, if_true]
      exact ih _ _ _ _ _
        (getD_set_le (processSensor_nml_le _ _ _ _ _ _ _ (h1 idx)) h1)
        (getD_set_le (processSensor_stuck_le _ _ _ _ _ _ _ (h2 idx)) h2)
    · simp only [snsLoop, hm, if_false]
      exact ih _ _ _ _ _ h1 h2

theorem wdLoop_result_unsel (wd : WidgetContext) (sensors : List SensorContext)
    (cfg : List WidgetConfig) (mask : Nat) (rb : Bool) {i : Nat}
    (hi : mask.testBit i = false) :
    ∀ (w wid idx : Nat) (nml stuck : List Nat) (result : Nat),
      (wdLoop wd sensors cfg mask rb w wid idx nml stuck result).1.testBit i
        = result.testBit i := by
  intro w
  induction w with
  | zero => intro _ _ _ _ _; rfl
  | succ w ih =>
    intro wid idx nml stuck result
    simp only [wdLoop]
    rw [ih, snsLoop_result_unsel wd sensors mask rb wid hi]

theorem wdLoop_counters_frame (wd : WidgetContext) (sensors : List SensorContext)
    (cfg : List WidgetConfig) (mask : Nat) (rb : Bool) {i : Nat} :
    ∀ (w wid idx : Nat) (nml stuck : List Nat) (result : Nat),
      (mask.testBit i = false ∨ i < idx ∨ idx + sumSnsFrom cfg wid w ≤ i) →
      (wdLoop wd sensors cfg mask rb w wid idx nml stuck result).2.1.getD i 0
          = nml.getD i 0 ∧
        (wdLoop wd sensors cfg mask rb w wid idx nml stuck result).2.2.1.getD i 0
          = stuck.getD i 0 := by
  intro w
  induction w with
  | zero => intro _ _ _ _ _ _; exact ⟨rfl, rfl⟩
  | succ w ih =>
    intro wid idx nml stuck result hrange
    simp only [sumSnsFrom] at hrange
    have hinner : mask.testBit i = false ∨ i < idx ∨ idx + (cfg.getD wid ⟨0⟩).numSns ≤ i := by
      rcases hrange with h | h | h
      · exact Or.inl h
      · exact Or.inr (Or.inl h)
      · exact Or.inr (Or.inr (by omega))
    have hnext : mask.testBit i = false ∨ i < idx + (cfg.getD wid ⟨0⟩).numSns ∨
        (idx + (cfg.getD wid ⟨0⟩).numSns) + sumSnsFrom cfg (wid + 1) w ≤ i := by
      rcases hrange with h | h | h
      · exact Or.inl h
      · exact Or.inr (Or.inl (by omega))
      · exact Or.inr (Or.inr (by omega))
    simp only [wdLoop]
    have hin := snsLoop_counters_frame wd sensors mask rb wid
      (cfg.getD wid ⟨0⟩).numSns 0 idx nml stuck result hinner
    have hrec := ih (wid + 1) (idx + (cfg.getD wid ⟨0⟩).numSns)
      (snsLoop wd sensors mask rb wid (cfg.getD wid ⟨0⟩).numSns 0 idx nml stuck result).2.1
      (snsLoop wd sensors mask rb wid (cfg.getD wid ⟨0⟩).numSns 0 idx nml stuck result).2.2.1
      (snsLoop wd sensors mask rb wid (cfg.getD wid ⟨0⟩).numSns 0 idx nml stuck result).1
      hnext
    exact ⟨hrec.1.trans hin.1, hrec.2.trans hin.2⟩

theorem wdLoop_resets_sel (wd : WidgetContext) (sensors : List SensorContext)
    (cfg : List WidgetConfig) (mask : Nat) (rb : Bool) :
    ∀ (w wid idx : Nat) (nml stuck : List Nat) (result : Nat),
      ∀ r ∈ (wdLoop wd sensors cfg mask rb w wid idx nml stuck result).2.2.2,
        mask.testBit r.2.2 = true := by
  intro w
  induction w with
  | zero => intro _ _ _ _ _ r hr; cases hr
  | succ w ih =>
    intro wid idx nml stuck result r hr
    simp only [wdLoop] at hr
    rcases List.mem_append.1 hr with h | h
    · exact snsLoop_resets_sel wd sensors mask rb wid _ _ _ _ _ _ r h
    · exact ih _ _ _ _ _ r h

theorem wdLoop_result_mono (wd : WidgetContext) (sensors : List SensorContext)
    (cfg : List WidgetConfig) (mask : Nat) (rb : Bool) {i : Nat} :
    ∀ (w wid idx : Nat) (nml stuck : List Nat) (result : Nat),
      result.testBit i = true →
      (wdLoop wd sensors cfg mask rb w wid idx nml stuck result).1.testBit i = true := by
  intro w
  induction w with
  | zero => intro _ _ _ _ _ h; exact h
  | succ w ih =>
    intro wid idx nml stuck result h
    simp only [wdLoop]
    exact ih _ _ _ _ _ (snsLoop_result_mono wd sensors mask rb wid _ _ _ _ _ _ h)

theorem wdLoop_sets_bit (wd : WidgetContext) (sensors : List SensorContext)
    (cfg : List WidgetConfig) (mask : Nat) (rb : Bool) {i : Nat}
    (hsel : mask.testBit i = true)
    (hdiff : HYPER_EVENT_FTH_MULTIPLIER * wd.fingerTh < (sensors.getD i snsDefault).diff) :
    ∀ (w wid idx : Nat) (nml stuck : List Nat) (result : Nat),
      idx ≤ i → i < idx + sumSnsFrom cfg wid w →
      (wdLoop wd sensors cfg mask rb w wid idx nml stuck result).1.testBit i = true := by
  intro w
  induction w with
  | zero =>
    intro _ _ _ _ _ h1 h2
    simp only [sumSnsFrom] at h2
    omega
  | succ w ih =>
    intro wid idx nml stuck result h1 h2
    simp only [sumSnsFrom] at h2
    simp only [wdLoop]
    rcases Nat.lt_or_ge i (idx + (cfg.getD wid ⟨0⟩).numSns) with hlt | hge
    · apply wdLoop_result_mono
      exact snsLoop_sets_bit wd sensors mask rb wid hsel hdiff _ _ _ _ _ _ h1 hlt
    · exact ih _ _ _ _ _ hge (by omega)

theorem wdLoop_rb_inv (wd : WidgetContext) (sensors : List SensorContext)
    (cfg : List WidgetConfig) (mask : Nat) (rb : Bool) :
    ∀ (w wid idx : Nat) (nml stuck : List Nat) (result : Nat),
      ((wdLoop wd sensors cfg mask rb w wid idx nml stuck result).1,
        (wdLoop wd sensors cfg mask rb w wid idx nml stuck result).2.1,
        (wdLoop wd sensors cfg mask rb w wid idx nml stuck result).2.2.1)
      = ((wdLoop wd sensors cfg mask false w wid idx nml stuck result).1,
        (wdLoop wd sensors cfg mask false w wid idx nml stuck result).2.1,
        (wdLoop wd sensors cfg mask false w wid idx nml stuck result).2.2.1) := by
  intro w
  induction w with
  | zero => intro _ _ _ _ _; rfl
  | succ w ih =>
    intro wid idx nml stuck result
    simp only [wdLoop]
    have hin := snsLoop_rb_inv wd sensors mask wid rb
      (cfg.getD wid ⟨0⟩).numSns 0 idx nml stuck result
    rw [show (snsLoop wd sensors mask rb wid (cfg.getD wid ⟨0⟩).numSns 0 idx
        nml stuck result).2.1
      = (snsLoop wd sensors mask false wid (cfg.getD wid ⟨0⟩).numSns 0 idx
        nml stuck result).2.1 from congrArg (fun p => p.2.1) hin,
      show (snsLoop wd sensors mask rb wid (cfg.getD wid ⟨0⟩).numSns 0 idx
        nml stuck result).2.2.1
      = (snsLoop wd sensors mask false wid (cfg.getD wid ⟨0⟩).numSns 0 idx
        nml stuck result).2.2.1 from congrArg (fun p => p.2.2) hin,
      show (snsLoop wd sensors mask rb wid (cfg.getD wid ⟨0⟩).numSns 0 idx
        nml stuck result).1
      = (snsLoop wd sensors mask false wid (cfg.getD wid ⟨0⟩).numSns 0 idx
        nml stuck result).1 from congrArg (fun p => p.1) hin]
    exact ih _ _ _ _ _

theorem wdLoop_resets_false (wd : WidgetContext) (sensors : List SensorContext)
    (cfg : List WidgetConfig) (mask : Nat) :
    ∀ (w wid idx : Nat) (nml stuck : List Nat) (result : Nat),
      (wdLoop wd sensors cfg mask false w wid idx nml stuck result).2.2.2 = [] := by
  intro w
  induction w with
  | zero => intro _ _ _ _ _; rfl
  | succ w ih =>
    intro wid idx nml stuck result
    simp only [wdLoop, snsLoop_resets_false, List.nil_append]
    exact ih _ _ _ _ _

theorem wdLoop_bound (wd : WidgetContext) (sensors : List SensorContext)
    (cfg : List WidgetConfig) (mask : Nat) (rb : Bool) :
    ∀ (w wid idx : Nat) (nml stuck : List Nat) (result : Nat),
      (∀ k, nml.getD k 0 ≤ NO_MANS_LAND_COUNT) →
      (∀ k, stuck.getD k 0 ≤ STUCK_SENSOR_COUNT) →
      (∀ k, (wdLoop wd sensors cfg mask rb w wid idx nml stuck result).2.1.getD k 0
          ≤ NO_MANS_LAND_COUNT) ∧
        (∀ k, (wdLoop wd sensors cfg mask rb w wid idx nml stuck result).2.2.1.getD k 0
          ≤ STUCK_SENSOR_COUNT) := by
  intro w
  induction w with
  | zero => intro _ _ nml stuck _ h1 h2; exact ⟨h1, h2⟩
  | succ w ih =>
    intro wid idx nml stuck result h1 h2
    simp only [wdLoop]
    have hin := snsLoop_bound wd sensors mask rb wid
      (cfg.getD wid ⟨0⟩).numSns 0 idx nml stuck result h1 h2
    exact ih _ _ _ _ _ hin.1 hin.2

theorem processSensor_nmlFlag (wd : WidgetContext) (sns : SensorContext)
    (a b c : Nat) (rb : Bool) (n s : Nat) :
    (processSensor wd sns a b c rb n s).nmlFlag =
      ((decide (wd.noiseTh < sns.diff) && decide (sns.diff < wd.fingerTh + wd.hysteresis)) &&
        decide (NO_MANS_LAND_COUNT <
          if decide (wd.noiseTh < sns.diff) && decide (sns.diff < wd.fingerTh + wd.hysteresis)
          then n + 1 else n)) := rfl

theorem processSensor_stuckFlag (wd : WidgetContext) (sns : SensorContext)
    (a b c : Nat) (rb : Bool) (n s : Nat) :
    (processSensor wd sns a b c rb n s).stuckFlag =
      (sns.status && decide (STUCK_SENSOR_COUNT < if sns.status then s + 1 else s)) := rfl

theorem sensorRun_nml_in_band (wd : WidgetContext) (sns : SensorContext)
    (wid snum sidx : Nat) (rb : Bool) (s0 : Nat)
    (hib : (decide (wd.noiseTh < sns.diff) &&
      decide (sns.diff < wd.fingerTh + wd.hysteresis)) = true) :
    ∀ k, k ≤ NO_MANS_LAND_COUNT → (sensorRun wd sns wid snum sidx rb 0 s0 k).1 = k := by
  intro k
  induction k with
  | zero => intro _; rfl
  | succ k ih =>
    intro hk
    have hkk := ih (Nat.le_of_succ_le hk)
    simp only [sensorRun]
    rw [processSensor_nml_eq, hkk]
    have hnf : ¬ (NO_MANS_LAND_COUNT < k + 1) := by omega
    simp [hib, hnf]

theorem sensorRun_stuck_touched (wd : WidgetContext) (sns : SensorContext)
    (wid snum sidx : Nat) (rb : Bool) (c0 : Nat) (hst : sns.status = true) :
    ∀ k, k ≤ STUCK_SENSOR_COUNT → (sensorRun wd sns wid snum sidx rb c0 0 k).2 = k := by
  intro k
  induction k with
  | zero => intro _; rfl
  | succ k ih =>
    intro hk
    have hkk := ih (Nat.le_of_succ_le hk)
    simp only [sensorRun]
    rw [processSensor_stuck_eq, hkk]
    have hnf : ¬ (STUCK_SENSOR_COUNT < k + 1) := by omega
    simp [hst, hnf]

theorem checkSensor_result (st : CapSenseState) (counters : MonitorState)
    (mask : Nat) (rb : Bool) :
    (checkSensor st counters mask rb).result
      = (wdLoop (st.widgetContext.headD wdDefault) st.sensorContext st.wdConfig mask rb
        st.widgetContext.length 0 0 counters.noMansLandCounter counters.stuckCounter 0).1 := rfl

/-- Claim C8: the two count thresholds are build-time constants computed by
truncating integer division of the timeout by the scan period:
`NO_MANS_LAND_COUNT = 3000 / 10 = 300` and `STUCK_SENSOR_COUNT = 6000 / 10 = 600`. -/
theorem c8_count_constants :
    NO_MANS_LAND_COUNT = NO_MANS_LAND_TIMEOUT_MSEC / CAPSENSE_TOTAL_SCAN_TIME_MSEC ∧
    STUCK_SENSOR_COUNT = STUCK_SENSOR_TIMEOUT_MSEC / CAPSENSE_TOTAL_SCAN_TIME_MSEC ∧
    NO_MANS_LAND_COUNT = 3000 / 10 ∧ NO_MANS_LAND_COUNT = 300 ∧
    STUCK_SENSOR_COUNT = 6000 / 10 ∧ STUCK_SENSOR_COUNT = 600 :=
  ⟨rfl, rfl, rfl, rfl, rfl, rfl⟩

/-- Claim C1 (refuted; code bug): the claim says every sensor is classified
against the thresholds of the widget it belongs to.  In the source
`ptrWdContext` is never advanced, so every sensor is checked against the first
widget's thresholds.  In the two-widget scenario configuration, sensor 1
(widget B: FT=200, NT=50, HYST=20) reads signal 210 and trips the hyper-event
rule against widget A's FT=100 (since 210 > 2*100): it is reported and
baseline-reset, and its no-man's-land counter stays 0.  The spec-modelled
per-widget variant instead reports nothing, performs no reset, and counts
sensor 1 as in no-man's-land (50 < 210 < 200 + 20). -/
theorem c1_first_widget_thresholds_used :
    (checkSensor scenarioState scenarioCounters ALL_SENSORS true).result = 2 ∧
    (checkSensor scenarioState scenarioCounters ALL_SENSORS true).resets = [(1, 0, 1)] ∧
    (checkSensor scenarioState scenarioCounters ALL_SENSORS true).noMansLandCounter = [0, 0] ∧
    (checkSensorPerWidget scenarioState scenarioCounters ALL_SENSORS true).result = 0 ∧
    (checkSensorPerWidget scenarioState scenarioCounters ALL_SENSORS true).resets = [] ∧
    (checkSensorPerWidget scenarioState scenarioCounters ALL_SENSORS true).noMansLandCounter
      = [0, 1] := by
  decide

/-- Claim C2 (refuted; code bug): the claim expects result 0 on each of the
first `NO_MANS_LAND_COUNT` calls of the scenario.  Because the code applies
widget A's thresholds to sensor B, already the first call returns 0b10 (hyper
event fires immediately) and sensor B's no-man's-land counter never moves; the
spec-modelled per-widget variant returns 0 on that call as the claim
requires. -/
theorem c2_scenario_first_call_not_zero :
    (checkSensor scenarioState scenarioCounters ALL_SENSORS false).result = 2 ∧
    (checkSensor scenarioState scenarioCounters ALL_SENSORS false).noMansLandCounter.getD 1 0
      = 0 ∧
    (checkSensorPerWidget scenarioState scenarioCounters ALL_SENSORS false).result = 0 := by
  decide

/-- Claim C3: a sensor whose bit is not set in `sensorMask` is skipped
entirely, for every state, selector and flag: its bit in the returned mask is
0, neither of its persistent counters changes, and no baseline reset is
invoked with its sensor index. -/
theorem c3_unselected_sensor_untouched (st : CapSenseState) (counters : MonitorState)
    (mask : Nat) (rb : Bool) (i : Nat) (hi : mask.testBit i = false) :
    (checkSensor st counters mask rb).result.testBit i = false ∧
    (checkSensor st counters mask rb).noMansLandCounter.getD i 0
      = counters.noMansLandCounter.getD i 0 ∧
    (checkSensor st counters mask rb).stuckCounter.getD i 0
      = counters.stuckCounter.getD i 0 ∧
    ∀ r ∈ (checkSensor st counters mask rb).resets, r.2.2 ≠ i := by
  have hf := wdLoop_counters_frame (st.widgetContext.headD wdDefault) st.sensorContext
    st.wdConfig mask rb st.widgetContext.length 0 0 counters.noMansLandCounter
    counters.stuckCounter 0 (Or.inl hi)
  refine ⟨?_, hf.1, hf.2, ?_⟩
  · rw [checkSensor_result, wdLoop_result_unsel _ _ _ _ _ hi, Nat.zero_testBit]
  · intro r hr he
    have := wdLoop_resets_sel (st.widgetContext.headD wdDefault) st.sensorContext
      st.wdConfig mask rb st.widgetContext.length 0 0 counters.noMansLandCounter
      counters.stuckCounter 0 r hr
    rw [he, hi] at this
    exact Bool.false_ne_true this

/-- Witness for claim C3 at a concrete input: selector 1 does not select
sensor 1, whose result bit is clear. -/
theorem c3_witness :
    (checkSensor scenarioState scenarioCounters 1 true).result.testBit 1 = false :=
  (c3_unselected_sensor_untouched scenarioState scenarioCounters 1 true 1 (by decide)).1

/-- Claim C7: for every starting counter state, external state and selector,
`checkSensor` returns the same result mask and the same final counter arrays
for `resetBaseline = true` and `resetBaseline = false`, and with
`resetBaseline = false` the external baseline-reset action is never
invoked. -/
theorem c7_reset_flag_invariant (st : CapSenseState) (counters : MonitorState) (mask : Nat) :
    (checkSensor st counters mask true).result = (checkSensor st counters mask false).result ∧
    (checkSensor st counters mask true).noMansLandCounter
      = (checkSensor st counters mask false).noMansLandCounter ∧
    (checkSensor st counters mask true).stuckCounter
      = (checkSensor st counters mask false).stuckCounter ∧
    (checkSensor st counters mask false).resets = [] := by
  have h := wdLoop_rb_inv (st.widgetContext.headD wdDefault) st.sensorContext st.wdConfig
    mask true st.widgetContext.length 0 0 counters.noMansLandCounter counters.stuckCounter 0
  exact ⟨congrArg (fun p => p.1) h, congrArg (fun p => p.2.1) h,
    congrArg (fun p => p.2.2) h,
    wdLoop_resets_false (st.widgetContext.headD wdDefault) st.sensorContext st.wdConfig
      mask st.widgetContext.length 0 0 counters.noMansLandCounter counters.stuckCounter 0⟩

/-- Claim C9: if on entry every no-man's-land counter is at most
`NO_MANS_LAND_COUNT` and every stuck counter at most `STUCK_SENSOR_COUNT`,
the same bounds hold on exit from any call, for every selector, flag and
external state; hence the `uint32_t` counters never overflow. -/
theorem c9_counters_bounded (st : CapSenseState) (counters : MonitorState)
    (mask : Nat) (rb : Bool)
    (h1 : ∀ k, counters.noMansLandCounter.getD k 0 ≤ NO_MANS_LAND_COUNT)
    (h2 : ∀ k, counters.stuckCounter.getD k 0 ≤ STUCK_SENSOR_COUNT) :
    (∀ k, (checkSensor st counters mask rb).noMansLandCounter.getD k 0
      ≤ NO_MANS_LAND_COUNT) ∧
    (∀ k, (checkSensor st counters mask rb).stuckCounter.getD k 0 ≤ STUCK_SENSOR_COUNT) :=
  wdLoop_bound (st.widgetContext.headD wdDefault) st.sensorContext st.wdConfig mask rb
    st.widgetContext.length 0 0 counters.noMansLandCounter counters.stuckCounter 0 h1 h2

/-- Witness for claim C9 at a concrete input: the bound holds after a call on
the zero-initialised scenario counters. -/
theorem c9_witness :
    (checkSensor scenarioState scenarioCounters ALL_SENSORS true).noMansLandCounter.getD 0 0
      ≤ NO_MANS_LAND_COUNT :=
  (c9_counters_bounded scenarioState scenarioCounters ALL_SENSORS true
    (fun k => by rcases k with _ | _ | k <;> simp [scenarioCounters])
    (fun k => by rcases k with _ | _ | k <;> simp [scenarioCounters])).1 0

theorem sensorRun_succ (wd : WidgetContext) (sns : SensorContext)
    (wid snum sidx : Nat) (rb : Bool) (c0 s0 k : Nat) :
    sensorRun wd sns wid snum sidx rb c0 s0 (k + 1)
      = ((processSensor wd sns wid snum sidx rb
          (sensorRun wd sns wid snum sidx rb c0 s0 k).1
          (sensorRun wd sns wid snum sidx rb c0 s0 k).2).nml,
        (processSensor wd sns wid snum sidx rb
          (sensorRun wd sns wid snum sidx rb c0 s0 k).1
          (sensorRun wd sns wid snum sidx rb c0 s0 k).2).stuck) := rfl

/-- Claim C4: a selected sensor whose no-man's-land counter starts at zero and
whose signal stays strictly between `noiseTh` and `fingerTh + hysteresis` on
consecutive selected calls has its counter equal to `k` after `k` calls
(`k ≤ NO_MANS_LAND_COUNT`), is not flagged by the no-man's-land rule on calls
1 to `NO_MANS_LAND_COUNT`, is flagged by it exactly on call
`NO_MANS_LAND_COUNT + 1`, and its counter is 0 after that call. -/
theorem c4_no_mans_land_window (wd : WidgetContext) (sns : SensorContext)
    (wid snum sidx : Nat) (rb : Bool) (s0 : Nat)
    (hlo : wd.noiseTh < sns.diff) (hhi : sns.diff < wd.fingerTh + wd.hysteresis) :
    (∀ k, k ≤ NO_MANS_LAND_COUNT → (sensorRun wd sns wid snum sidx rb 0 s0 k).1 = k) ∧
    (∀ k, k < NO_MANS_LAND_COUNT →
      (processSensor wd sns wid snum sidx rb (sensorRun wd sns wid snum sidx rb 0 s0 k).1
        (sensorRun wd sns wid snum sidx rb 0 s0 k).2).nmlFlag = false) ∧
    (processSensor wd sns wid snum sidx rb
      (sensorRun wd sns wid snum sidx rb 0 s0 NO_MANS_LAND_COUNT).1
      (sensorRun wd sns wid snum sidx rb 0 s0 NO_MANS_LAND_COUNT).2).nmlFlag = true ∧
    (sensorRun wd sns wid snum sidx rb 0 s0 (NO_MANS_LAND_COUNT + 1)).1 = 0 := by
  have hib : (decide (wd.noiseTh < sns.diff) &&
      decide (sns.diff < wd.fingerTh + wd.hysteresis)) = true := by
    simp [hlo, hhi]
  have hrun := sensorRun_nml_in_band wd sns wid snum sidx rb s0 hib
  refine ⟨hrun, ?_, ?_, ?_⟩
  · intro k hk
    rw [processSensor_nmlFlag, hrun k (Nat.le_of_lt hk)]
    have hnf : ¬ (NO_MANS_LAND_COUNT < k + 1) := by omega
    simp [hib, hnf]
  · rw [processSensor_nmlFlag, hrun NO_MANS_LAND_COUNT (Nat.le_refl _)]
    simp [hib]
  · rw [sensorRun_succ, processSensor_nml_eq, hrun NO_MANS_LAND_COUNT (Nat.le_refl _)]
    simp [hib]

/-- Witness for claim C4 at a concrete input: a sensor at signal 50 in a
(FT=100, NT=20, HYST=10) widget is flagged on call `NO_MANS_LAND_COUNT + 1`. -/
theorem c4_witness :
    (processSensor ⟨100, 20, 10⟩ ⟨50, false⟩ 0 0 0 false
      (sensorRun ⟨100, 20, 10⟩ ⟨50, false⟩ 0 0 0 false 0 0 NO_MANS_LAND_COUNT).1
      (sensorRun ⟨100, 20, 10⟩ ⟨50, false⟩ 0 0 0 false 0 0 NO_MANS_LAND_COUNT).2).nmlFlag
      = true :=
  (c4_no_mans_land_window ⟨100, 20, 10⟩ ⟨50, false⟩ 0 0 0 false 0
    (by decide) (by decide)).2.2.1

/-- Claim C5: a sensor reported touched on consecutive selected calls, starting
from a zero stuck counter, is flagged by the stuck rule exactly on call
`STUCK_SENSOR_COUNT + 1` (not earlier), with the counter reset to 0 after that
call; an untouched call never sets the stuck flag and leaves the stuck counter
unchanged (interrupting the streak without decaying the counter, per the
spec's no-decay resolution); and any call that sets the stuck flag requires
the sensor to be touched with a counter that has already reached
`STUCK_SENSOR_COUNT`, so after an interruption the counter must still cross
the threshold before the sensor can be flagged by this rule. -/
theorem c5_stuck_window (wd : WidgetContext) (sns snsU : SensorContext)
    (wid snum sidx : Nat) (rb : Bool) (c0 : Nat)
    (hst : sns.status = true) (hun : snsU.status = false) :
    (∀ k, k ≤ STUCK_SENSOR_COUNT → (sensorRun wd sns wid snum sidx rb c0 0 k).2 = k) ∧
    (∀ k, k < STUCK_SENSOR_COUNT →
      (processSensor wd sns wid snum sidx rb (sensorRun wd sns wid snum sidx rb c0 0 k).1
        (sensorRun wd sns wid snum sidx rb c0 0 k).2).stuckFlag = false) ∧
    (processSensor wd sns wid snum sidx rb
      (sensorRun wd sns wid snum sidx rb c0 0 STUCK_SENSOR_COUNT).1
      (sensorRun wd sns wid snum sidx rb c0 0 STUCK_SENSOR_COUNT).2).stuckFlag = true ∧
    (sensorRun wd sns wid snum sidx rb c0 0 (STUCK_SENSOR_COUNT + 1)).2 = 0 ∧
    (∀ c s, (processSensor wd snsU wid snum sidx rb c s).stuckFlag = false ∧
      (processSensor wd snsU wid snum sidx rb c s).stuck = s) ∧
    (∀ (sns2 : SensorContext) (c s : Nat),
      (processSensor wd sns2 wid snum sidx rb c s).stuckFlag = true →
        sns2.status = true ∧ STUCK_SENSOR_COUNT ≤ s) := by
  have hrun := sensorRun_stuck_touched wd sns wid snum sidx rb c0 hst
  refine ⟨hrun, ?_, ?_, ?_, ?_, ?_⟩
  · intro k hk
    rw [processSensor_stuckFlag, hrun k (Nat.le_of_lt hk)]
    have hnf : ¬ (STUCK_SENSOR_COUNT < k + 1) := by omega
    simp [hst, hnf]
  · rw [processSensor_stuckFlag, hrun STUCK_SENSOR_COUNT (Nat.le_refl _)]
    simp [hst]
  · rw [sensorRun_succ, processSensor_stuck_eq, hrun STUCK_SENSOR_COUNT (Nat.le_refl _)]
    simp [hst]
  · intro c s
    constructor
    · rw [processSensor_stuckFlag]
      simp [hun]
    · rw [processSensor_stuck_eq]
      simp [hun]
  · intro sns2 c s hflag
    rw [processSensor_stuckFlag] at hflag
    rw [Bool.and_eq_true] at hflag
    obtain ⟨h1, h2⟩ := hflag
    refine ⟨h1, ?_⟩
    rw [h1] at h2
    simp only [if_true, decide_eq_true_eq] at h2
    omega

/-- Witness for claim C5 at a concrete input: a continuously touched sensor is
flagged by the stuck rule on call `STUCK_SENSOR_COUNT + 1`. -/
theorem c5_witness :
    (processSensor ⟨100, 20, 10⟩ ⟨0, true⟩ 0 0 0 false
      (sensorRun ⟨100, 20, 10⟩ ⟨0, true⟩ 0 0 0 false 0 0 STUCK_SENSOR_COUNT).1
      (sensorRun ⟨100, 20, 10⟩ ⟨0, true⟩ 0 0 0 false 0 0 STUCK_SENSOR_COUNT).2).stuckFlag
      = true :=
  (c5_stuck_window ⟨100, 20, 10⟩ ⟨0, true⟩ ⟨0, false⟩ 0 0 0 false 0
    (by decide) (by decide)).2.2.1

/-- Claim C6 (refuted; code bug): the claim says every selected sensor whose
signal strictly exceeds `HYPER_EVENT_FTH_MULTIPLIER` times the finger
threshold of the widget that sensor belongs to has its result bit set on that
very call.  Sensor 1's own widget has FT=100 and its signal 250 exceeds
2*100, yet the code leaves its result bit clear (the whole mask is 0),
because the never-advanced `ptrWdContext` makes the hyper-event test use
widget 0's FT=300 (250 < 600); the spec-modelled per-widget variant sets the
bit on that very call. -/
theorem c6_hyper_event_own_threshold_ignored :
    HYPER_EVENT_FTH_MULTIPLIER * (hyperState.widgetContext.getD 1 wdDefault).fingerTh
      < (hyperState.sensorContext.getD 1 snsDefault).diff ∧
    (checkSensor hyperState scenarioCounters ALL_SENSORS false).result.testBit 1 = false ∧
    (checkSensor hyperState scenarioCounters ALL_SENSORS false).result = 0 ∧
    (checkSensorPerWidget hyperState scenarioCounters ALL_SENSORS false).result = 2 := by
  decide

/-- Claim C10: with `resetBaseline = true`, the body for one selected sensor
invokes the baseline reset once per tripped rule, with no deduplication (the
trace length is the number of tripped rules, up to three, and every entry
carries the same widget/sensor arguments), while the mask contribution of a
single processed sensor is at most that sensor's one bit (OR semantics), set
once no matter how many rules tripped. -/
theorem c10_reset_per_tripped_rule (wd : WidgetContext) (sns : SensorContext)
    (wid snum sidx c s : Nat) :
    (processSensor wd sns wid snum sidx true c s).resets.length
      = ((if (processSensor wd sns wid snum sidx true c s).hyperFlag then 1 else 0) +
        ((if (processSensor wd sns wid snum sidx true c s).nmlFlag then 1 else 0) +
          (if (processSensor wd sns wid snum sidx true c s).stuckFlag then 1 else 0))) ∧
    (∀ r ∈ (processSensor wd sns wid snum sidx true c s).resets, r = (wid, snum, sidx)) ∧
    (∀ (sensors : List SensorContext) (mask snm : Nat) (nml stuck : List Nat),
      (snsLoop wd sensors mask true wid 1 snm sidx nml stuck 0).1 = 0 ∨
      (snsLoop wd sensors mask true wid 1 snm sidx nml stuck 0).1 = 1 <<< sidx) := by
  refine ⟨?_, processSensor_resets_mem wd sns wid snum sidx true c s, ?_⟩
  · dsimp only [processSensor]
    cases decide (HYPER_EVENT_FTH_MULTIPLIER * wd.fingerTh < sns.diff) <;>
      cases (decide (wd.noiseTh < sns.diff) &&
          decide (sns.diff < wd.fingerTh + wd.hysteresis)) &&
        decide (NO_MANS_LAND_COUNT <
          if decide (wd.noiseTh < sns.diff) && decide (sns.diff < wd.fingerTh + wd.hysteresis)
          then c + 1 else c) <;>
      cases sns.status && decide (STUCK_SENSOR_COUNT < if sns.status then s + 1 else s) <;>
        simp
  · intro sensors mask snm nml stuck
    by_cases hm : mask.testBit sidx
    · simp only [snsLoop, hm, if_true]
      cases (processSensor wd (sensors.getD sidx snsDefault) wid snm sidx true
          (nml.getD sidx 0) (stuck.getD sidx 0)).hyperFlag <;>
        cases (processSensor wd (sensors.getD sidx snsDefault) wid snm sidx true
            (nml.getD sidx 0) (stuck.getD sidx 0)).nmlFlag <;>
          cases (processSensor wd (sensors.getD sidx snsDefault) wid snm sidx true
              (nml.getD sidx 0) (stuck.getD sidx 0)).stuckFlag <;>
            simp [snsLoop, Nat.zero_or, Nat.or_self]
    · simp only [snsLoop, hm, if_false]
      exact Or.inl rfl

end CheckSensors
